import Mathlib

/-!
Verification development for the plasmids-search-engine repository.

The embedding covers, from `src/Addgene_parser.py`:
the `Description`/`Plasmid` data model, `PlasmidParser.get` (field
extraction from the detail document), `Plasmid.to_csv` / `Plasmid.to_txt`
(file materialization and the size fallback), and the batch loop of
`PlasmidParser.__init__`; and from `src/db_creator.py`: `make_sql_style`
and `create_record`.

HTML documents are modelled at the granularity the code queries them:
the detail document is the text of its `material-name` span (if any)
together with, for each label string, the full text of the enclosing
`li.field` element that a `find(string=label).find_parent(...)` chain
would return (absence of either step is one `Option`, since both
failure points raise the same caught `AttributeError`).  The network
is external: fetched documents and payloads are inputs.
-/

/-- Python exception kinds raised by the modelled code paths. -/
inductive PyErr where
  | attributeError
  | valueError
  | indexError
  | typeError
  | unicodeDecodeError
deriving DecidableEq, Repr

/-- Worker for Python `str.split()`: walks the characters, collecting
the current token in reverse; whitespace closes the token (empty runs
contribute nothing). -/
def pysplitGo : List Char → List Char → List String
  | [], cur => if cur = [] then [] else [String.mk cur.reverse]
  | c :: cs, cur =>
    if c.isWhitespace then
      if cur = [] then pysplitGo cs []
      else String.mk cur.reverse :: pysplitGo cs []
    else pysplitGo cs (c :: cur)

/-- Python `str.split()` with no separator: split on whitespace runs,
dropping empty pieces. -/
def pysplit (s : String) : List String :=
  pysplitGo s.data []

/-- Python `" ".join(l)`. -/
def joinSp (l : List String) : String :=
  String.intercalate " " l

/-- Value of a nonempty all-decimal-digit character list, else `none`. -/
def decDigitsVal (cs : List Char) : Option Nat :=
  if cs = [] then none
  else if cs.all (fun c => c.isDigit) then
    some (cs.foldl (fun a c => a * 10 + (c.toNat - 48)) 0)
  else none

/-- Python `str.strip()`: drop whitespace from both ends. -/
def stripWs (cs : List Char) : List Char :=
  ((cs.dropWhile Char.isWhitespace).reverse.dropWhile Char.isWhitespace).reverse

/-- Python `int(s)` on decimal literals: strips surrounding whitespace,
allows one leading sign, then requires decimal digits; `none` models the
`ValueError` raise. -/
def pyInt (s : String) : Option Int :=
  match stripWs s.data with
  | [] => none
  | c :: cs =>
    if c = '-' then (decDigitsVal cs).map (fun n => -(n : Int))
    else if c = '+' then (decDigitsVal cs).map (fun n => (n : Int))
    else (decDigitsVal (c :: cs)).map (fun n => (n : Int))

/-- Python `file.readline()` followed by `.split()` drops the newline, so
the first line is the prefix before the first newline character. -/
def firstLine (s : String) : String :=
  String.mk (s.data.takeWhile (fun c => c != '\n'))

/-- Python `l[-4::-1]`: the first `len - 3` elements, reversed
(empty when `len < 4`). -/
def pySliceNeg4Rev {α : Type} (l : List α) : List α :=
  (l.take (l.length - 3)).reverse

/-- Python `l[-3::-1]`: the first `len - 2` elements, reversed
(empty when `len < 3`). -/
def pySliceNeg3Rev {α : Type} (l : List α) : List α :=
  (l.take (l.length - 2)).reverse

/-- The detail document, at the granularity `PlasmidParser.get` queries
it: `materialName` is the text of the `span.material-name` element if
present; `fields` associates a label string (matched by
`find(string=label)`) with the full text of the enclosing `li.field`
element.  A label that is absent, or that has no `li.field` ancestor,
simply has no entry: both failure points raise the same caught
`AttributeError` in the source. -/
structure Doc where
  materialName : Option String
  fields : List (String × String)
deriving DecidableEq, Repr

/-- `doc.find(string=lbl).find_parent('li', class_='field').text`. -/
def Doc.findField (d : Doc) (lbl : String) : Option String :=
  (d.fields.find? (fun kv => kv.1 == lbl)).map (fun kv => kv.2)

/-- The `Description` dataclass of `Addgene_parser.py`, at its runtime
types: `marker`, `growth_t` and `growth_strain` are stored as token
lists (the source never joins them); the other optional attributes are
joined strings; `size` is an `int` or `None`. -/
structure Plasmid where
  name : String
  id : Int
  vendor : String
  url : String
  size : Option Int
  backbone : Option String
  vector_type : Option String
  marker : Option (List String)
  resistance : Option String
  growth_t : Option (List String)
  growth_strain : Option (List String)
  growth_instructions : Option String
  copy_num : Option String
  gene_insert : Option String
deriving DecidableEq, Repr

/-- Backbone extraction: `' '.join(text.split()[-4::-1][-3::-1])`. -/
def extractBackbone (d : Doc) : Option String :=
  (d.findField "Vector backbone").map
    (fun t => joinSp (pySliceNeg3Rev (pySliceNeg4Rev (pysplit t))))

/-- Vector type: `' '.join(text.split()[2::])`. -/
def extractVectorType (d : Doc) : Option String :=
  (d.findField "Vector type").map (fun t => joinSp ((pysplit t).drop 2))

/-- Selectable markers: `text.split()[2::]` (kept as a list). -/
def extractMarker (d : Doc) : Option (List String) :=
  (d.findField "Selectable markers").map (fun t => (pysplit t).drop 2)

/-- Bacterial resistance(s): `' '.join(text.split()[2::])`. -/
def extractResistance (d : Doc) : Option String :=
  (d.findField "Bacterial Resistance(s)").map (fun t => joinSp ((pysplit t).drop 2))

/-- Growth temperature: `text.split()[2::]` (kept as a list). -/
def extractGrowthT (d : Doc) : Option (List String) :=
  (d.findField "Growth Temperature").map (fun t => (pysplit t).drop 2)

/-- Growth strain(s): `text.split()[2::]` (kept as a list). -/
def extractGrowthStrain (d : Doc) : Option (List String) :=
  (d.findField "Growth Strain(s)").map (fun t => (pysplit t).drop 2)

/-- Growth instructions: `' '.join(text.split()[2::])`. -/
def extractGrowthInstructions (d : Doc) : Option String :=
  (d.findField "Growth instructions").map (fun t => joinSp ((pysplit t).drop 2))

/-- Copy number: `' '.join(text.split()[2::])`. -/
def extractCopyNum (d : Doc) : Option String :=
  (d.findField "Copy number").map (fun t => joinSp ((pysplit t).drop 2))

/-- Gene/Insert name: `' '.join(text.split()[2::])`. -/
def extractGeneInsert (d : Doc) : Option String :=
  (d.findField "Gene/Insert name").map (fun t => joinSp ((pysplit t).drop 2))

/-- The string handed to `int(...)` for the size field:
`' '.join(text.split()[4::])`. -/
def extractSizeText (d : Doc) : Option String :=
  (d.findField "Total vector size (bp)").map (fun t => joinSp ((pysplit t).drop 4))

/-- The size attribute: label absent gives `None` (caught
`AttributeError`); a present label whose remaining tokens do not parse
as an integer raises `ValueError`, which the source does not catch. -/
def extractSize (d : Doc) : Except PyErr (Option Int) :=
  match extractSizeText d with
  | none => Except.ok none
  | some s =>
    match pyInt s with
    | none => Except.error PyErr.valueError
    | some n => Except.ok (some n)

/-- The `Plasmid(...)` constructor call at the end of
`PlasmidParser.get`, with every field given by its extractor. -/
def assemblePlasmid (d : Doc) (id : Int) (vendor url name : String)
    (size : Option Int) : Plasmid :=
  { name := name, id := id, vendor := vendor, url := url, size := size,
    backbone := extractBackbone d, vector_type := extractVectorType d,
    marker := extractMarker d, resistance := extractResistance d,
    growth_t := extractGrowthT d, growth_strain := extractGrowthStrain d,
    growth_instructions := extractGrowthInstructions d,
    copy_num := extractCopyNum d, gene_insert := extractGeneInsert d }

/-- `PlasmidParser.get` up to the `Plasmid(...)` construction: name
extraction is unguarded (a missing `material-name` span raises
`AttributeError`); each optional attribute is extracted inside its own
`try/except AttributeError`; the `int(...)` of the size field can raise
an uncaught `ValueError`. -/
def PlasmidParser.get (d : Doc) (id : Int) (vendor url : String) :
    Except PyErr Plasmid :=
  match d.materialName with
  | none => Except.error PyErr.attributeError
  | some name =>
    match extractSize d with
    | Except.error e => Except.error e
    | Except.ok size => Except.ok (assemblePlasmid d id vendor url name size)

/-- The sequence sub-page document, at the granularity `Plasmid.to_txt`
queries it: the `href` attributes of the `a.genbank-file-download`
anchors, in document order. -/
structure SeqDoc where
  genbankLinks : List String
deriving DecidableEq, Repr

/-- A write issued against the filesystem sink. -/
inductive SinkEvent where
  | csvWrite (filePath : String)
  | seqWrite (filePath : String) (payload : String)
deriving DecidableEq, Repr

/-- The directory path built by `to_csv`/`to_txt` (note the literal
Windows separators of the source). -/
def plasmidDir (path name : String) : String :=
  path ++ "Plasmids\\" ++ name

/-- The csv file path of `to_csv`. -/
def csvFilePath (path name : String) : String :=
  path ++ "Plasmids\\" ++ name ++ "\\" ++ name ++ "_csv.txt"

/-- The sequence file path of `to_txt`. -/
def txtFilePath (path name : String) : String :=
  path ++ "Plasmids\\" ++ name ++ "\\" ++ name ++ ".txt"

/-- `Plasmid.to_csv`: writes the attribute csv for the record; modelled
by its sink event. -/
def Plasmid.to_csv (p : Plasmid) (path : String) : SinkEvent :=
  SinkEvent.csvWrite (csvFilePath path p.name)

/-- `Plasmid.to_txt`: `find_all('a', class_='genbank-file-download')[0]`
raises `IndexError` when no link exists (before anything is written);
otherwise the payload served at that link (the `urlopen` result, an
input here) is written to disk, and if `self.size is None` the record is
mutated in place with `int(first_line.split()[2])`, whose index and
int steps can raise uncaught `IndexError` / `ValueError`.  Returns the
sink events issued and the (possibly mutated) record or the raise. -/
def Plasmid.to_txt (p : Plasmid) (path : String) (doc_seq : SeqDoc)
    (payload : String) : List SinkEvent × Except PyErr Plasmid :=
  match doc_seq.genbankLinks with
  | [] => ([], Except.error PyErr.indexError)
  | _ :: _ =>
    let ev := [SinkEvent.seqWrite (txtFilePath path p.name) payload]
    match p.size with
    | some _ => (ev, Except.ok p)
    | none =>
      match (pysplit (firstLine payload)).get? 2 with
      | none => (ev, Except.error PyErr.indexError)
      | some t =>
        match pyInt t with
        | none => (ev, Except.error PyErr.valueError)
        | some n => (ev, Except.ok { p with size := some n })

/-- The per-identifier network inputs of one batch element: the detail
document, the sequence document, and the payload served at the first
genbank download link. -/
structure IdInput where
  id : Int
  doc : Doc
  seqDoc : SeqDoc
  payload : String
deriving DecidableEq, Repr

/-- `self.url = self.base_url + f-string of the id + '/'`. -/
def plasmidUrl (baseUrl : String) (id : Int) : String :=
  baseUrl ++ toString id ++ "/"

/-- The outcome of one batch run: the sink writes issued (in order), the
records appended to `plasmid_list`, and the uncaught exception that
terminated the run, if any. -/
structure RunResult where
  events : List SinkEvent
  records : List Plasmid
  err : Option PyErr
deriving DecidableEq, Repr

/-- One iteration of the `PlasmidParser.__init__` loop body for one
identifier: `get` extracts and assembles, then `to_csv` and `to_txt`
write to the sink; any raise propagates.  `get_html` returns `None` for
an unrecognized vendor, whose unpacking raises `TypeError`. -/
def PlasmidParser.processOne (path vendor baseUrl : String) (inp : IdInput) :
    List SinkEvent × Except PyErr Plasmid :=
  if vendor == "addgene" then
    match PlasmidParser.get inp.doc inp.id vendor (plasmidUrl baseUrl inp.id) with
    | Except.error e => ([], Except.error e)
    | Except.ok p =>
      let r := Plasmid.to_txt p path inp.seqDoc inp.payload
      (Plasmid.to_csv p path :: r.1, r.2)
  else ([], Except.error PyErr.typeError)

/-- The `PlasmidParser.__init__` loop over a list of identifiers: each
identifier is processed fully before the next; a successfully processed
record is appended to `plasmid_list`; an uncaught exception terminates
the loop (there is no `try/except` around the body), leaving later
identifiers unprocessed. -/
def PlasmidParser.runBatch (path vendor baseUrl : String) :
    List IdInput → RunResult
  | [] => { events := [], records := [], err := none }
  | inp :: rest =>
    match PlasmidParser.processOne path vendor baseUrl inp with
    | (evs, Except.error e) => { events := evs, records := [], err := some e }
    | (evs, Except.ok p) =>
      let r := PlasmidParser.runBatch path vendor baseUrl rest
      { events := evs ++ r.events, records := p :: r.records, err := r.err }

/-- The single-quote character (written by code point to keep the file
free of stray quote tokens). -/
def squote : Char := Char.ofNat 39

/-- The double-quote character. -/
def dquote : Char := Char.ofNat 34

/-- `"''".join(value.split("'"))` of `make_sql_style`: every single
quote is doubled. -/
def escQ (s : String) : String :=
  String.mk (s.data.flatMap (fun c => if c = squote then [squote, squote] else [c]))

/-- A Python runtime value as stored in a `Plasmid` attribute slot of
`db_creator.py`: the dataclass fields hold `None`, `str`, `int` or
`list`-of-`str` values, and the dynamically added `sequence` attribute
holds `bytes` (then a `str` after hex coding). -/
inductive PyVal where
  | vNone
  | vStr (s : String)
  | vInt (n : Int)
  | vList (xs : List String)
  | vBytes (bs : List Nat)
deriving DecidableEq, Repr

/-- Escapes used by Python `repr` of a string, for delimiter `q`. -/
def reprEsc (q : Char) : List Char → List Char
  | [] => []
  | c :: cs =>
    (if c = '\\' then ['\\', '\\']
     else if c = q then ['\\', q]
     else if c = '\n' then ['\\', 'n']
     else if c = '\r' then ['\\', 'r']
     else if c = '\t' then ['\\', 't']
     else [c]) ++ reprEsc q cs

/-- Python `repr` of a `str` (as used when a `list` is interpolated into
an f-string): single-quote delimited, except double-quote delimited when
the text holds a single quote and no double quote. -/
def pyReprStr (s : String) : String :=
  if s.data.contains squote ∧ ¬ s.data.contains dquote then
    String.mk (dquote :: reprEsc dquote s.data ++ [dquote])
  else
    String.mk (squote :: reprEsc squote s.data ++ [squote])

/-- Python `str(v)` as evaluated by an f-string interpolation:
`None` prints as the text None, strings print verbatim, ints print in
decimal, and lists print via `repr` of their elements. -/
def pyStr (v : PyVal) : String :=
  match v with
  | PyVal.vNone => "None"
  | PyVal.vStr s => s
  | PyVal.vInt n => toString n
  | PyVal.vList xs =>
    "[" ++ String.intercalate ", " (xs.map pyReprStr) ++ "]"
  | PyVal.vBytes bs =>
    "b" ++ String.mk (squote :: (bs.flatMap (fun b => (Nat.toDigits 16 b))) ++ [squote])

/-- Minimum-width-2 lowercase hex, Python format spec 02x. -/
def hexByte (n : Nat) : String :=
  let ds := Nat.toDigits 16 n
  String.mk (List.replicate (2 - ds.length) '0' ++ ds)

/-- The hex coding of `make_sql_style`: each character of the decoded
text contributes the 02x rendering of its code point. -/
def hexEncode (cs : List Char) : String :=
  String.join (cs.map (fun c => hexByte c.toNat))

/-- Whether a byte is a UTF-8 continuation byte. -/
def isCont (b : Nat) : Bool := 128 ≤ b ∧ b ≤ 191

/-- Python `bytes.decode('utf-8')`: a standard UTF-8 decoder rejecting
overlong forms, surrogates and out-of-range code points; `none` models
the `UnicodeDecodeError` raise. -/
def utf8Decode : List Nat → Option (List Char)
  | [] => some []
  | b :: rest =>
    if b ≤ 127 then
      (utf8Decode rest).map (fun cs => Char.ofNat b :: cs)
    else if 194 ≤ b ∧ b ≤ 223 then
      match rest with
      | b2 :: r2 =>
        if isCont b2 then
          (utf8Decode r2).map (fun cs => Char.ofNat ((b - 192) * 64 + (b2 - 128)) :: cs)
        else none
      | [] => none
    else if 224 ≤ b ∧ b ≤ 239 then
      match rest with
      | b2 :: b3 :: r3 =>
        if (isCont b2 && isCont b3) &&
           ((b ≠ 224 || 160 ≤ b2) && (b ≠ 237 || b2 ≤ 159)) then
          (utf8Decode r3).map (fun cs =>
            Char.ofNat ((b - 224) * 4096 + (b2 - 128) * 64 + (b3 - 128)) :: cs)
        else none
      | _ => none
    else if 240 ≤ b ∧ b ≤ 244 then
      match rest with
      | b2 :: b3 :: b4 :: r4 =>
        if ((isCont b2 && isCont b3) && isCont b4) &&
           ((b ≠ 240 || 144 ≤ b2) && (b ≠ 244 || b2 ≤ 143)) then
          (utf8Decode r4).map (fun cs =>
            Char.ofNat ((b - 240) * 262144 + (b2 - 128) * 4096 +
              (b3 - 128) * 64 + (b4 - 128)) :: cs)
        else none
      | _ => none
    else none

/-- The `Plasmid` object as `db_creator.py` sees it: the fourteen
dataclass attributes (each holding an arbitrary runtime value) plus the
dynamic `sequence` attribute, `none` when the attribute has never been
set (its access then raises `AttributeError`). -/
structure PyPlasmid where
  name : PyVal
  id : PyVal
  vendor : PyVal
  url : PyVal
  size : PyVal
  backbone : PyVal
  vector_type : PyVal
  marker : PyVal
  resistance : PyVal
  growth_t : PyVal
  growth_strain : PyVal
  growth_instructions : PyVal
  copy_num : PyVal
  gene_insert : PyVal
  sequence : Option PyVal
deriving DecidableEq, Repr

/-- A parser-produced record as a Python object: the dataclass fields at
their runtime values; no `sequence` attribute is ever set by
`Addgene_parser.py`, so the slot is `none`. -/
def Plasmid.toPy (p : Plasmid) : PyPlasmid :=
  { name := PyVal.vStr p.name, id := PyVal.vInt p.id,
    vendor := PyVal.vStr p.vendor, url := PyVal.vStr p.url,
    size := match p.size with | none => PyVal.vNone | some n => PyVal.vInt n,
    backbone := match p.backbone with | none => PyVal.vNone | some s => PyVal.vStr s,
    vector_type := match p.vector_type with | none => PyVal.vNone | some s => PyVal.vStr s,
    marker := match p.marker with | none => PyVal.vNone | some xs => PyVal.vList xs,
    resistance := match p.resistance with | none => PyVal.vNone | some s => PyVal.vStr s,
    growth_t := match p.growth_t with | none => PyVal.vNone | some xs => PyVal.vList xs,
    growth_strain := match p.growth_strain with | none => PyVal.vNone | some xs => PyVal.vList xs,
    growth_instructions := match p.growth_instructions with | none => PyVal.vNone | some s => PyVal.vStr s,
    copy_num := match p.copy_num with | none => PyVal.vNone | some s => PyVal.vStr s,
    gene_insert := match p.gene_insert with | none => PyVal.vNone | some s => PyVal.vStr s,
    sequence := none }

/-- The per-attribute transform of the `make_sql_style` loop over
`__dict__`: `None` becomes the empty string, a `str` has its single
quotes doubled, anything else is left as is. -/
def sqlV (v : PyVal) : PyVal :=
  match v with
  | PyVal.vNone => PyVal.vStr ""
  | PyVal.vStr s => PyVal.vStr (escQ s)
  | x => x

/-- The `__dict__` loop of `make_sql_style`: `sqlV` applied to every
attribute present on the object. -/
def sqlStyled (p : PyPlasmid) : PyPlasmid :=
  { name := sqlV p.name, id := sqlV p.id, vendor := sqlV p.vendor,
    url := sqlV p.url, size := sqlV p.size, backbone := sqlV p.backbone,
    vector_type := sqlV p.vector_type, marker := sqlV p.marker,
    resistance := sqlV p.resistance, growth_t := sqlV p.growth_t,
    growth_strain := sqlV p.growth_strain,
    growth_instructions := sqlV p.growth_instructions,
    copy_num := sqlV p.copy_num, gene_insert := sqlV p.gene_insert,
    sequence := p.sequence.map sqlV }

/-- `make_sql_style`: the `__dict__` loop applies `sqlV` to every
attribute present, then `plasmid.sequence.decode('utf-8')` is read:
an absent `sequence` attribute raises `AttributeError` (so does a
non-`bytes` value, which has no `decode`); a `bytes` value is decoded
and re-coded as the lowercase-hex string stored back in `sequence`. -/
def make_sql_style (p : PyPlasmid) : Except PyErr PyPlasmid :=
  match (sqlStyled p).sequence with
  | none => Except.error PyErr.attributeError
  | some v =>
    match v with
    | PyVal.vBytes bs =>
      match utf8Decode bs with
      | none => Except.error PyErr.unicodeDecodeError
      | some cs =>
        Except.ok { sqlStyled p with sequence := some (PyVal.vStr (hexEncode cs)) }
    | _ => Except.error PyErr.attributeError

/-- The `CREATE TABLE IF NOT EXISTS` statement of `create_record`. -/
def createTableSql : String :=
  "CREATE TABLE IF NOT EXISTS addgene_plasmids " ++
  "(id INT PRIMARY KEY, name TEXT, size INT, backbone TEXT, vector_type TEXT, marker TEXT, resistance TEXT, " ++
  "growth_t TEXT, growth_strain TEXT, growth_instructions TEXT, copy_num TEXT, gene_insert TEXT, url TEXT, " ++
  "sequence TEXT)"

/-- A single quote as a one-character string. -/
def sqlQ : String := String.mk [squote]

/-- The INSERT f-string of `create_record` up to (excluding) the
interpolation of `plasmid.size`. -/
def insertSqlBefore (p : PyPlasmid) : String :=
  "INSERT INTO addgene_plasmids (id, name, size, backbone, vector_type, marker, resistance, growth_t, " ++
  "growth_strain, growth_instructions, copy_num, gene_insert, url, sequence)" ++
  "  VALUES (" ++ pyStr p.id ++ ", " ++ sqlQ ++ pyStr p.name ++ sqlQ ++ ", "

/-- The INSERT f-string of `create_record` after the interpolation of
`plasmid.size` (the `sequence` attribute value is passed explicitly). -/
def insertSqlAfter (p : PyPlasmid) (seqv : PyVal) : String :=
  ", " ++ sqlQ ++ pyStr p.backbone ++ sqlQ ++ ", " ++ sqlQ ++ pyStr p.vector_type ++ sqlQ ++ "," ++
  " " ++ sqlQ ++ pyStr p.marker ++ sqlQ ++ ", " ++ sqlQ ++ pyStr p.resistance ++ sqlQ ++ ", " ++
  sqlQ ++ pyStr p.growth_t ++ sqlQ ++ ", " ++ sqlQ ++ pyStr p.growth_strain ++ sqlQ ++ "," ++
  " " ++ sqlQ ++ pyStr p.growth_instructions ++ sqlQ ++ ", " ++ sqlQ ++ pyStr p.copy_num ++ sqlQ ++ ", " ++
  sqlQ ++ pyStr p.gene_insert ++ sqlQ ++ ", " ++ sqlQ ++ pyStr p.url ++ sqlQ ++ "," ++
  " " ++ sqlQ ++ pyStr seqv ++ sqlQ ++ ")"

/-- The full INSERT statement: the `size` value slot is the bare
f-string interpolation of the `size` attribute, unquoted. -/
def insertSql (p : PyPlasmid) (seqv : PyVal) : String :=
  insertSqlBefore p ++ pyStr p.size ++ insertSqlAfter p seqv

/-- `create_record`: `make_sql_style` runs first (its raise propagates
before any statement is executed); then the CREATE TABLE and INSERT
statements are executed in order. -/
def create_record (p : PyPlasmid) : Except PyErr (List String) :=
  match make_sql_style p with
  | Except.error e => Except.error e
  | Except.ok q =>
    match q.sequence with
    | none => Except.error PyErr.attributeError
    | some seqv => Except.ok [createTableSql, insertSql q seqv]

/-- The rendered text placed in the `size` value slot of the INSERT for
a record accepted by `make_sql_style`. -/
def sizeFragment (p : PyPlasmid) : Option String :=
  match make_sql_style p with
  | Except.error _ => none
  | Except.ok q => some (pyStr q.size)

/-- Whether a rendered SQL value is a well-formed nullable-integer
column value: the NULL keyword or an integer literal (formalizes the
wording of the sink contract in the spec). -/
def isNullableIntToken (s : String) : Bool :=
  s == "NULL" || (pyInt s).isSome

/-- Modelled from the spec: the Retry Executor of spec section 4.1 is
not present under `src/` (the `get_html` there issues plain unretried
requests; only wrapped operations appear in `src/`).  Following the
spec's words: the operation is invoked on attempts `1, 2, ...`; on a
transient failure the executor sleeps and retries, except after the
`N`-th consecutive failure, which propagates with no further sleep.
`retryGo op attempt fuel` returns the result, the 1-based attempt
numbers after which a sleep occurred (in order), and the number of
attempts made. -/
def retryGo {α : Type} (op : Nat → Except Unit α) :
    Nat → Nat → Except Unit α × List Nat × Nat
  | _, 0 => (Except.error (), [], 0)
  | attempt, fuel + 1 =>
    match op attempt, fuel with
    | Except.ok a, _ => (Except.ok a, [], 1)
    | Except.error _, 0 => (Except.error (), [], 1)
    | Except.error _, rem + 1 =>
      ((retryGo op (attempt + 1) (rem + 1)).1,
       attempt :: (retryGo op (attempt + 1) (rem + 1)).2.1,
       (retryGo op (attempt + 1) (rem + 1)).2.2 + 1)

/-- Modelled from the spec: the wrapped call with attempt budget `N`
starts at attempt 1. -/
def retryRun {α : Type} (op : Nat → Except Unit α) (N : Nat) :
    Except Unit α × List Nat × Nat :=
  retryGo op 1 N

/-- Modelled from the spec: the backoff delay formula of section 4.1,
`delay(attempt) = BASE_DELAY + log2(attempt) * SCALE` with the reference
constants `BASE_DELAY = 60` and `SCALE = 10`, over the 1-based retry
count. -/
noncomputable def retryDelay (attempt : Nat) : ℝ :=
  60 + Real.logb 2 attempt * 10

/-- Concrete fixture: a not-found detail page. The body carries the
vendor's not-found sentinel label text, and (being a not-found page) no
`material-name` span. -/
def nfDoc : Doc :=
  { materialName := none,
    fields := [("Material not found", "Material not found")] }

/-- Concrete fixture: the batch input for a not-found identifier. -/
def nfInput : IdInput :=
  { id := 1, doc := nfDoc, seqDoc := { genbankLinks := [] }, payload := "" }

/-- The reference base URL of the source. -/
def defaultBaseUrl : String := "https://www.addgene.org/"

/-- Concrete fixture: a well-formed detail page carrying a name and a
size field. -/
def goodDoc : Doc :=
  { materialName := some "pGood",
    fields := [("Total vector size (bp)", "Total vector size (bp) 4361")] }

/-- Concrete fixture: the batch input for the well-formed identifier. -/
def goodInput : IdInput :=
  { id := 42888, doc := goodDoc, seqDoc := { genbankLinks := ["x"] },
    payload := "LOCUS pGood 4361 bp" }

/-- The record `PlasmidParser.get` assembles from `goodDoc`. -/
def goodPlasmid : Plasmid :=
  { name := "pGood", id := 42888, vendor := "addgene",
    url := "https://www.addgene.org/42888/", size := some 4361,
    backbone := none, vector_type := none, marker := none,
    resistance := none, growth_t := none, growth_strain := none,
    growth_instructions := none, copy_num := none, gene_insert := none }

/-- Concrete fixture: a detail page with a name but no size label. -/
def noSizeDoc : Doc :=
  { materialName := some "pGood", fields := [] }

/-- The record `PlasmidParser.get` assembles from `noSizeDoc`: like
`goodPlasmid` but with `size` unresolved. -/
def noSizePlasmid : Plasmid :=
  { goodPlasmid with size := none }

/-- `noSizePlasmid` after the `to_txt` size fallback ran on a payload
whose first-line third token is 4361. -/
def fallbackPlasmid : Plasmid :=
  { noSizePlasmid with size := some 4361 }

/-- Concrete fixture: a detail page whose size field is present but
holds a non-numeric token. -/
def badSizeDoc : Doc :=
  { materialName := some "pX",
    fields := [("Total vector size (bp)", "Total vector size (bp) unknown")] }

/-- Concrete fixture: a record as handed to the relational sink, with
the `sequence` attribute set (empty payload) and no resolved size. -/
def sinkPlasmid : PyPlasmid :=
  { name := PyVal.vStr "pX", id := PyVal.vInt 1,
    vendor := PyVal.vStr "addgene", url := PyVal.vStr "u",
    size := PyVal.vNone, backbone := PyVal.vNone,
    vector_type := PyVal.vNone, marker := PyVal.vNone,
    resistance := PyVal.vNone, growth_t := PyVal.vNone,
    growth_strain := PyVal.vNone, growth_instructions := PyVal.vNone,
    copy_num := PyVal.vNone, gene_insert := PyVal.vNone,
    sequence := some (PyVal.vBytes []) }

/-- Concrete fixture: a name holding a single quote. -/
def quotedName : String := String.mk ['p', squote, 'b']

/-- Concrete fixture: `sinkPlasmid` with the quoted name. -/
def quotedSinkPlasmid : PyPlasmid :=
  { sinkPlasmid with name := PyVal.vStr quotedName }

/-- What `make_sql_style` hands back for `quotedSinkPlasmid`: quotes
doubled in the name, every `None` attribute turned into the empty
string, and the hex coding of the empty payload in `sequence`. -/
def styledQuotedPlasmid : PyPlasmid :=
  { name := PyVal.vStr (escQ quotedName), id := PyVal.vInt 1,
    vendor := PyVal.vStr "addgene", url := PyVal.vStr "u",
    size := PyVal.vStr "", backbone := PyVal.vStr "",
    vector_type := PyVal.vStr "", marker := PyVal.vStr "",
    resistance := PyVal.vStr "", growth_t := PyVal.vStr "",
    growth_strain := PyVal.vStr "", growth_instructions := PyVal.vStr "",
    copy_num := PyVal.vStr "", gene_insert := PyVal.vStr "",
    sequence := some (PyVal.vStr "") }

/-- Concrete fixture: a detail page carrying only a vector-type
field. -/
def vtOnlyDoc : Doc :=
  { materialName := some "pX",
    fields := [("Vector type", "Vector type Mammalian Expression")] }

/-- The record `get` assembles from `vtOnlyDoc`. -/
def vtOnlyPlasmid : Plasmid :=
  { name := "pX", id := 7, vendor := "addgene", url := "u", size := none,
    backbone := none, vector_type := some "Mammalian Expression",
    marker := none, resistance := none, growth_t := none,
    growth_strain := none, growth_instructions := none, copy_num := none,
    gene_insert := none }

/-- Concrete fixture: `vtOnlyDoc` with a backbone field added. -/
def vtPlusBackboneDoc : Doc :=
  { materialName := some "pX",
    fields := [("Vector type", "Vector type Mammalian Expression"),
               ("Vector backbone", "Vector backbone pBB x y z")] }

/-- The record `get` assembles from `vtPlusBackboneDoc`. -/
def vtPlusBackbonePlasmid : Plasmid :=
  { vtOnlyPlasmid with backbone := some "pBB" }

/-- Concrete fixture: a transport that fails on the first two attempts
and then succeeds. -/
def flakyOp (i : Nat) : Except Unit Nat :=
  if i ≤ 2 then Except.error () else Except.ok 7

/-- Concrete fixture: a transport that always fails. -/
def alwaysFailOp (_ : Nat) : Except Unit Nat :=
  Except.error ()

/-- Equality of `Except` results is decidable componentwise. -/
instance {ε α : Type} [DecidableEq ε] [DecidableEq α] :
    DecidableEq (Except ε α) := fun a b =>
  match a, b with
  | Except.ok x, Except.ok y =>
    if h : x = y then Decidable.isTrue (by rw [h])
    else Decidable.isFalse (fun hh => h (by cases hh; rfl))
  | Except.ok _, Except.error _ => Decidable.isFalse (fun hh => by cases hh)
  | Except.error _, Except.ok _ => Decidable.isFalse (fun hh => by cases hh)
  | Except.error x, Except.error y =>
    if h : x = y then Decidable.isTrue (by rw [h])
    else Decidable.isFalse (fun hh => h (by cases hh; rfl))

/-- A successful `PlasmidParser.get` exposes a resolved name, a
successful size resolution, and the assembled record. -/
theorem get_ok_shape {d : Doc} {id : Int} {v u : String} {p : Plasmid}
    (h : PlasmidParser.get d id v u = Except.ok p) :
    ∃ nm sz, d.materialName = some nm ∧ extractSize d = Except.ok sz ∧
      p = assemblePlasmid d id v u nm sz := by
  unfold PlasmidParser.get at h
  cases hm : d.materialName with
  | none => rw [hm] at h; cases h
  | some nm =>
    rw [hm] at h
    cases hs : extractSize d with
    | error e => rw [hs] at h; cases h
    | ok sz =>
      rw [hs] at h
      cases h
      exact ⟨nm, sz, rfl, rfl, rfl⟩

/-- When the size label is absent from the document, the size attribute
of a successfully assembled record is unresolved. -/
theorem get_size_none {d : Doc} {id : Int} {v u : String} {p : Plasmid}
    (h : PlasmidParser.get d id v u = Except.ok p)
    (hf : d.findField "Total vector size (bp)" = none) : p.size = none := by
  obtain ⟨nm, sz, _, hs, hp⟩ := get_ok_shape h
  have htxt : extractSizeText d = none := by
    unfold extractSizeText; rw [hf]; rfl
  unfold extractSize at hs
  rw [htxt] at hs
  cases hs
  rw [hp]
  rfl

/-- C1 counterexample input: the claim, instantiated at a batch holding
one identifier whose detail document carries the not-found sentinel,
demands a clean skip: normal loop completion with no record and no sink
write.  The code instead lets the unguarded name extraction raise, so
the run terminates with an `AttributeError`. -/
theorem C1_counterexample :
    PlasmidParser.runBatch "" "addgene" defaultBaseUrl [nfInput] ≠
      { events := [], records := [], err := none } := by decide

/-- C1 (amended): no sentinel check exists; an identifier whose detail
document has no resolvable name (as a not-found page does) yields no
record and no sink invocation, but through an uncaught `AttributeError`
raised by the name extraction, which terminates the whole batch rather
than skipping the identifier. -/
theorem C1_not_found_aborts_batch (path baseUrl : String) (inp : IdInput)
    (rest : List IdInput) (h : inp.doc.materialName = none) :
    PlasmidParser.runBatch path "addgene" baseUrl (inp :: rest) =
      { events := [], records := [], err := some PyErr.attributeError } := by
  have hget : PlasmidParser.get inp.doc inp.id "addgene"
      (plasmidUrl baseUrl inp.id) = Except.error PyErr.attributeError := by
    unfold PlasmidParser.get
    rw [h]
  have hproc : PlasmidParser.processOne path "addgene" baseUrl inp =
      ([], Except.error PyErr.attributeError) := by
    unfold PlasmidParser.processOne
    rw [hget]
    rfl
  unfold PlasmidParser.runBatch
  rw [hproc]

/-- C1 witness: the amended statement evaluated at the concrete
not-found fixture. -/
theorem C1_witness :
    PlasmidParser.runBatch "" "addgene" defaultBaseUrl [nfInput] =
      { events := [], records := [], err := some PyErr.attributeError } :=
  C1_not_found_aborts_batch "" defaultBaseUrl nfInput [] rfl

/-- C2 counterexample input: the claim, instantiated at the batch
[not-found identifier, well-formed identifier], demands that the batch
continue past the first failure and produce the second record.  The
second identifier is processable on its own (middle conjunct), yet the
batch run aborts on the first identifier with an uncaught
`AttributeError` and produces no record at all. -/
theorem C2_counterexample :
    PlasmidParser.runBatch "" "addgene" defaultBaseUrl [nfInput, goodInput] =
      { events := [], records := [], err := some PyErr.attributeError } ∧
    PlasmidParser.runBatch "" "addgene" defaultBaseUrl [goodInput] =
      { events := [SinkEvent.csvWrite (csvFilePath "" "pGood"),
                   SinkEvent.seqWrite (txtFilePath "" "pGood") "LOCUS pGood 4361 bp"],
        records := [goodPlasmid], err := none } ∧
    (PlasmidParser.runBatch "" "addgene" defaultBaseUrl [nfInput, goodInput]).records = [] := by
  refine ⟨?_, ?_, ?_⟩ <;> decide

/-- C2 (amended): a failure while processing one identifier raises an
uncaught exception that terminates the whole batch: the failing
identifier contributes no record, every identifier after it is never
processed (the run result does not depend on them), and no tally is
produced beyond the propagated exception. -/
theorem C2_failure_terminates_batch (path baseUrl : String) (inp : IdInput)
    (e : PyErr)
    (h : (PlasmidParser.processOne path "addgene" baseUrl inp).2 = Except.error e) :
    (∀ rest, PlasmidParser.runBatch path "addgene" baseUrl (inp :: rest) =
      { events := (PlasmidParser.processOne path "addgene" baseUrl inp).1,
        records := [], err := some e }) ∧
    (∀ pre rest, PlasmidParser.runBatch path "addgene" baseUrl (pre ++ inp :: rest) =
      PlasmidParser.runBatch path "addgene" baseUrl (pre ++ [inp])) := by
  have hone : ∀ rest, PlasmidParser.runBatch path "addgene" baseUrl (inp :: rest) =
      { events := (PlasmidParser.processOne path "addgene" baseUrl inp).1,
        records := [], err := some e } := by
    intro rest
    unfold PlasmidParser.runBatch
    cases hp : PlasmidParser.processOne path "addgene" baseUrl inp with
    | mk evs r =>
      cases r with
      | error e2 =>
        have : e2 = e := by
          have := h
          rw [hp] at this
          cases this
          rfl
        subst this
        simp [hp]
      | ok p =>
        rw [hp] at h
        cases h
  refine ⟨hone, ?_⟩
  intro pre rest
  induction pre with
  | nil =>
    rw [List.nil_append, List.nil_append, hone rest, hone []]
  | cons q qs ih =>
    rw [List.cons_append, List.cons_append]
    unfold PlasmidParser.runBatch
    cases hq : PlasmidParser.processOne path "addgene" baseUrl q with
    | mk evs r =>
      cases r with
      | error e2 => rfl
      | ok p => rw [ih]

/-- C2 witness: the amended statement evaluated at the concrete
not-found fixture followed by the well-formed fixture. -/
theorem C2_witness :
    PlasmidParser.runBatch "" "addgene" defaultBaseUrl [nfInput, goodInput] =
      { events := (PlasmidParser.processOne "" "addgene" defaultBaseUrl nfInput).1,
        records := [], err := some PyErr.attributeError } :=
  (C2_failure_terminates_batch "" defaultBaseUrl nfInput PyErr.attributeError
    (by decide)).1 [goodInput]

/-- C7 counterexample input: the claim, instantiated at a sequence
document with no locatable download link, demands a non-failing
"absent" outcome (after up to 3 inner tries).  The code instead raises
`IndexError` on the very first subscript, before writing anything. -/
theorem C7_counterexample :
    Plasmid.to_txt goodPlasmid "" { genbankLinks := [] } "x" =
      ([], Except.error PyErr.indexError) := by decide

/-- C7 (amended): when the sequence-file download link cannot be
located, `to_txt` raises `IndexError` at once — there are no inner
retries, no sink write, and no "absent" outcome. -/
theorem C7_missing_link_raises (p : Plasmid) (path payload : String) :
    Plasmid.to_txt p path { genbankLinks := [] } payload =
      ([], Except.error PyErr.indexError) := rfl

/-- C8 counterexample input: the claim demands that the sequence
download leave the assembled record unchanged; but on a record lacking
a resolved size (assembled by `get` from `noSizeDoc`, last conjunct)
`to_txt` hands back a record with a different `size` field. -/
theorem C8_counterexample :
    (Plasmid.to_txt noSizePlasmid "" { genbankLinks := ["x"] }
        "LOCUS pGood 4361 bp").2 = Except.ok fallbackPlasmid ∧
    fallbackPlasmid ≠ noSizePlasmid ∧
    PlasmidParser.get noSizeDoc 42888 "addgene" (plasmidUrl defaultBaseUrl 42888) =
      Except.ok noSizePlasmid := by
  refine ⟨?_, ?_, ?_⟩ <;> decide

/-- C8 (amended): the sequence-download step mutates at most the `size`
field of the constructed record — every other field survives — and a
record whose size was already resolved from the document is returned
entirely unchanged; the `sizeBasePairs` fallback is a post-construction
mutation, not a pre-assembly extraction. -/
theorem C8_mutation_only_size (p : Plasmid) (path : String) (sd : SeqDoc)
    (pay : String) (q : Plasmid)
    (h : (Plasmid.to_txt p path sd pay).2 = Except.ok q) :
    q = { p with size := q.size } ∧ ∀ n, p.size = some n → q = p := by
  unfold Plasmid.to_txt at h
  split at h
  · cases h
  · split at h
    · cases h
      exact ⟨rfl, fun _ _ => rfl⟩
    · rename_i hs
      split at h
      · cases h
      · split at h
        · cases h
        · cases h
          refine ⟨rfl, ?_⟩
          intro m hm
          rw [hs] at hm
          cases hm

/-- C8 witness: the amended statement at the concrete no-size fixture:
the mutated record agrees with the original outside `size`. -/
theorem C8_witness :
    fallbackPlasmid = { noSizePlasmid with size := fallbackPlasmid.size } :=
  (C8_mutation_only_size noSizePlasmid "" { genbankLinks := ["x"] }
    "LOCUS pGood 4361 bp" fallbackPlasmid (by decide)).1

/-- C9: an identifier whose detail document lacks the size label, and
whose downloaded sequence payload has a numeric third
whitespace-delimited token on its first line, ends with a record whose
`size` equals the integer value of that token. -/
theorem C9_size_fallback (d : Doc) (id : Int) (v u path : String)
    (p : Plasmid) (sd : SeqDoc) (pay : String) (q : Plasmid) (t : String)
    (n : Int)
    (h1 : d.findField "Total vector size (bp)" = none)
    (h2 : PlasmidParser.get d id v u = Except.ok p)
    (h3 : (pysplit (firstLine pay)).get? 2 = some t)
    (h4 : pyInt t = some n)
    (h5 : (Plasmid.to_txt p path sd pay).2 = Except.ok q) :
    q.size = some n := by
  have hps : p.size = none := get_size_none h2 h1
  unfold Plasmid.to_txt at h5
  split at h5
  · cases h5
  · split at h5
    · rename_i hs
      rw [hps] at hs
      cases hs
    · split at h5
      · rename_i hnone
        rw [h3] at hnone
        cases hnone
      · rename_i t2 ht2
        rw [h3] at ht2
        cases ht2
        split at h5
        · rename_i hn2
          rw [h4] at hn2
          cases hn2
        · rename_i n2 hn2
          rw [h4] at hn2
          cases hn2
          cases h5
          rfl

/-- C9 witness: the statement evaluated at the concrete no-size fixture
and the LOCUS-header payload. -/
theorem C9_witness : fallbackPlasmid.size = some 4361 :=
  C9_size_fallback noSizeDoc 42888 "addgene" (plasmidUrl defaultBaseUrl 42888)
    "" noSizePlasmid { genbankLinks := ["x"] } "LOCUS pGood 4361 bp"
    fallbackPlasmid "4361" 4361 (by decide) (by decide) (by decide)
    (by decide) (by decide)

/-- C10 counterexample input: the claim demands that a path-disallowed
character in a record name be replaced with an ASCII-safe substitute
before the name is used as a path component; but the question-mark
character (disallowed in Windows paths, which this code targets with
its literal backslash separators) survives verbatim in the materialized
csv path. -/
theorem C10_counterexample : '?' ∈ (csvFilePath "" "a?b").data := by decide

/-- C10 (amended): the record name is used verbatim as the
directory/file name component — every character of the name, including
path-disallowed ones, appears unchanged in the materialized path, and
no substitution is performed; consequently the name-to-path mapping is
injective for a fixed base path, so two distinct names (in particular
two names differing only in a disallowed-vs-substitute character) never
collide. -/
theorem C10_name_used_verbatim (path n1 n2 : String) :
    (csvFilePath path n1 = csvFilePath path n2 ↔ n1 = n2) ∧
    (∀ c, c ∈ n1.data → c ∈ (csvFilePath path n1).data) := by
  constructor
  · constructor
    · intro h
      have hd := congrArg String.data h
      simp only [csvFilePath, String.data_append] at hd
      have h2 := List.append_cancel_right hd
      have hlen := congrArg List.length h2
      simp only [List.length_append] at hlen
      have hlen2 : n1.data.length = n2.data.length := by omega
      exact String.ext (List.append_inj' h2 hlen2).2
    · intro h
      rw [h]
  · intro c hc
    simp only [csvFilePath, String.data_append, List.mem_append]
    tauto

/-- C10 witness: the amended statement at concrete names. -/
theorem C10_witness : ("ab" : String) = "ab" ∧ 'a' ∈ (csvFilePath "" "ab").data :=
  ⟨(C10_name_used_verbatim "" "ab" "ab").1.1 rfl,
   (C10_name_used_verbatim "" "ab" "ab").2 'a' (by decide)⟩

/-- C4 counterexample input: the claim demands that any failing parse
step resolve the attribute to "absent" without an exception escaping
the extractor; but a document whose size field is present with a
non-numeric token makes `get` raise `ValueError` (second conjunct: the
record the claim demands, with `size` absent, is not produced). -/
theorem C4_counterexample :
    PlasmidParser.get badSizeDoc 1 "addgene" "u" = Except.error PyErr.valueError ∧
    PlasmidParser.get badSizeDoc 1 "addgene" "u" ≠
      Except.ok (assemblePlasmid badSizeDoc 1 "addgene" "u" "pX" none) := by
  refine ⟨?_, ?_⟩ <;> decide

/-- C4 (amended): whenever `get` produces a record, an absent label
resolves the corresponding attribute to "absent", and each of the ten
optional attributes depends only on its own label (independence across
successful extractions); the exception the original claim rules out is
real but arises only from the uncaught numeric parse of a present size
label (see the counterexample). -/
theorem C4_absent_resolves_absent (d : Doc) (id : Int) (v u : String)
    (p : Plasmid) (h : PlasmidParser.get d id v u = Except.ok p) :
    ((d.findField "Vector backbone" = none → p.backbone = none) ∧
     (d.findField "Vector type" = none → p.vector_type = none) ∧
     (d.findField "Selectable markers" = none → p.marker = none) ∧
     (d.findField "Bacterial Resistance(s)" = none → p.resistance = none) ∧
     (d.findField "Growth Temperature" = none → p.growth_t = none) ∧
     (d.findField "Growth Strain(s)" = none → p.growth_strain = none) ∧
     (d.findField "Growth instructions" = none → p.growth_instructions = none) ∧
     (d.findField "Copy number" = none → p.copy_num = none) ∧
     (d.findField "Gene/Insert name" = none → p.gene_insert = none) ∧
     (d.findField "Total vector size (bp)" = none → p.size = none)) ∧
    (∀ d2 p2, PlasmidParser.get d2 id v u = Except.ok p2 →
      ((d2.findField "Vector backbone" = d.findField "Vector backbone" →
         p2.backbone = p.backbone) ∧
       (d2.findField "Vector type" = d.findField "Vector type" →
         p2.vector_type = p.vector_type) ∧
       (d2.findField "Selectable markers" = d.findField "Selectable markers" →
         p2.marker = p.marker) ∧
       (d2.findField "Bacterial Resistance(s)" = d.findField "Bacterial Resistance(s)" →
         p2.resistance = p.resistance) ∧
       (d2.findField "Growth Temperature" = d.findField "Growth Temperature" →
         p2.growth_t = p.growth_t) ∧
       (d2.findField "Growth Strain(s)" = d.findField "Growth Strain(s)" →
         p2.growth_strain = p.growth_strain) ∧
       (d2.findField "Growth instructions" = d.findField "Growth instructions" →
         p2.growth_instructions = p.growth_instructions) ∧
       (d2.findField "Copy number" = d.findField "Copy number" →
         p2.copy_num = p.copy_num) ∧
       (d2.findField "Gene/Insert name" = d.findField "Gene/Insert name" →
         p2.gene_insert = p.gene_insert) ∧
       (d2.findField "Total vector size (bp)" = d.findField "Total vector size (bp)" →
         p2.size = p.size))) := by
  obtain ⟨nm, sz, hm, hs, rfl⟩ := get_ok_shape h
  constructor
  · refine ⟨?_, ?_, ?_, ?_, ?_, ?_, ?_, ?_, ?_, ?_⟩
    · intro hf; simp [assemblePlasmid, extractBackbone, hf]
    · intro hf; simp [assemblePlasmid, extractVectorType, hf]
    · intro hf; simp [assemblePlasmid, extractMarker, hf]
    · intro hf; simp [assemblePlasmid, extractResistance, hf]
    · intro hf; simp [assemblePlasmid, extractGrowthT, hf]
    · intro hf; simp [assemblePlasmid, extractGrowthStrain, hf]
    · intro hf; simp [assemblePlasmid, extractGrowthInstructions, hf]
    · intro hf; simp [assemblePlasmid, extractCopyNum, hf]
    · intro hf; simp [assemblePlasmid, extractGeneInsert, hf]
    · intro hf; exact get_size_none h hf
  · intro d2 p2 h2
    obtain ⟨nm2, sz2, hm2, hs2, rfl⟩ := get_ok_shape h2
    refine ⟨?_, ?_, ?_, ?_, ?_, ?_, ?_, ?_, ?_, ?_⟩
    · intro hf; simp [assemblePlasmid, extractBackbone, hf]
    · intro hf; simp [assemblePlasmid, extractVectorType, hf]
    · intro hf; simp [assemblePlasmid, extractMarker, hf]
    · intro hf; simp [assemblePlasmid, extractResistance, hf]
    · intro hf; simp [assemblePlasmid, extractGrowthT, hf]
    · intro hf; simp [assemblePlasmid, extractGrowthStrain, hf]
    · intro hf; simp [assemblePlasmid, extractGrowthInstructions, hf]
    · intro hf; simp [assemblePlasmid, extractCopyNum, hf]
    · intro hf; simp [assemblePlasmid, extractGeneInsert, hf]
    · intro hf
      have hT : extractSizeText d2 = extractSizeText d := by
        simp [extractSizeText, hf]
      have hE : extractSize d2 = extractSize d := by
        simp [extractSize, hT]
      have h3 : Except.ok (ε := PyErr) sz2 = Except.ok sz := by
        rw [← hs2, ← hs, hE]
      cases h3
      rfl

/-- C4 witness: the amended statement at concrete documents — in
`vtOnlyDoc` the backbone label is absent and resolves to "absent";
adding a backbone field (`vtPlusBackboneDoc`) leaves the vector-type
attribute unchanged. -/
theorem C4_witness :
    vtOnlyPlasmid.backbone = none ∧
    vtPlusBackbonePlasmid.vector_type = vtOnlyPlasmid.vector_type :=
  ⟨(C4_absent_resolves_absent vtOnlyDoc 7 "addgene" "u" vtOnlyPlasmid
      (by decide)).1.1 (by decide),
   ((C4_absent_resolves_absent vtOnlyDoc 7 "addgene" "u" vtOnlyPlasmid
      (by decide)).2 vtPlusBackboneDoc vtPlusBackbonePlasmid
      (by decide)).2.1 (by decide)⟩

/-- A record accepted by `make_sql_style` is the `sqlV`-transform of its
input with the `sequence` slot replaced; in particular the attribute
slots are the per-field transforms and the `sequence` slot is set. -/
theorem make_sql_style_ok {p q : PyPlasmid}
    (h : make_sql_style p = Except.ok q) :
    q.name = sqlV p.name ∧ q.size = sqlV p.size ∧ q.url = sqlV p.url ∧
    q.marker = sqlV p.marker ∧ ∃ seqv, q.sequence = some seqv := by
  unfold make_sql_style at h
  split at h
  · cases h
  · split at h
    · split at h
      · cases h
      · cases h
        exact ⟨rfl, rfl, rfl, rfl, _, rfl⟩
    · cases h

/-- C6: a record constructed by `PlasmidParser.get` never carries a
`sequence` attribute (no assignment in the parser creates one, and the
`to_txt` mutation touches only `size`), so `make_sql_style` raises
`AttributeError` on it and `create_record` propagates the raise before
reaching its INSERT. -/
theorem C6_no_sequence_attribute (d : Doc) (id : Int) (v u : String)
    (p : Plasmid) (h : PlasmidParser.get d id v u = Except.ok p) :
    (Plasmid.toPy p).sequence = none ∧
    make_sql_style (Plasmid.toPy p) = Except.error PyErr.attributeError ∧
    create_record (Plasmid.toPy p) = Except.error PyErr.attributeError ∧
    (∀ path sd pay q, (Plasmid.to_txt p path sd pay).2 = Except.ok q →
      make_sql_style (Plasmid.toPy q) = Except.error PyErr.attributeError ∧
      create_record (Plasmid.toPy q) = Except.error PyErr.attributeError) := by
  exact ⟨rfl, rfl, rfl, fun _ _ _ _ _ => ⟨rfl, rfl⟩⟩

/-- C6 witness: the statement at the concrete well-formed fixture. -/
theorem C6_witness :
    make_sql_style (Plasmid.toPy goodPlasmid) = Except.error PyErr.attributeError ∧
    create_record (Plasmid.toPy goodPlasmid) = Except.error PyErr.attributeError :=
  ⟨(C6_no_sequence_attribute goodDoc 42888 "addgene"
      (plasmidUrl defaultBaseUrl 42888) goodPlasmid (by decide)).2.1,
   (C6_no_sequence_attribute goodDoc 42888 "addgene"
      (plasmidUrl defaultBaseUrl 42888) goodPlasmid (by decide)).2.2.1⟩

/-- C5 counterexample input: at a record with no resolved size handed to
the relational sink, the rendered size slot of the INSERT is the empty
string — not the NULL keyword and not an integer literal, so the
absent `sizeBasePairs` is not written as a nullable integer column
value (the VALUES clause reads `..., 'pX', , '', ...`). -/
theorem C5_counterexample :
    sizeFragment sinkPlasmid = some "" ∧
    isNullableIntToken "" = false := by
  refine ⟨?_, ?_⟩ <;> decide

/-- C5 (amended): for a record the sink accepts, a `str` attribute is
single-quote-escaped by doubling, a `list` attribute is interpolated
without any escaping, and an absent (`None`) `sizeBasePairs` is
rendered as the empty string in the INSERT value slot — never the
literal text None, but also never a nullable-integer column value. -/
theorem C5_sink_rendering (p q : PyPlasmid)
    (h : make_sql_style p = Except.ok q) :
    (p.size = PyVal.vNone → pyStr q.size = "" ∧ pyStr q.size ≠ "None" ∧
      isNullableIntToken (pyStr q.size) = false) ∧
    (∀ s, p.name = PyVal.vStr s → q.name = PyVal.vStr (escQ s)) ∧
    (∀ s, p.url = PyVal.vStr s → q.url = PyVal.vStr (escQ s)) ∧
    (∀ xs, p.marker = PyVal.vList xs → q.marker = PyVal.vList xs) ∧
    (∀ seqv, q.sequence = some seqv → create_record p =
      Except.ok [createTableSql,
        insertSqlBefore q ++ pyStr q.size ++ insertSqlAfter q seqv]) := by
  obtain ⟨hname, hsize, hurl, hmarker, seqv0, hseq⟩ := make_sql_style_ok h
  refine ⟨?_, ?_, ?_, ?_, ?_⟩
  · intro hps
    rw [hsize, hps]
    exact ⟨rfl, by decide, by decide⟩
  · intro s hps
    rw [hname, hps]
    rfl
  · intro s hps
    rw [hurl, hps]
    rfl
  · intro xs hps
    rw [hmarker, hps]
    rfl
  · intro seqv hq
    simp only [create_record, h, hq]
    rfl

/-- C5 witness: the amended statement at the concrete quoted-name
fixture accepted by the sink. -/
theorem C5_witness :
    (pyStr styledQuotedPlasmid.size = "" ∧
     pyStr styledQuotedPlasmid.size ≠ "None" ∧
     isNullableIntToken (pyStr styledQuotedPlasmid.size) = false) ∧
    styledQuotedPlasmid.name = PyVal.vStr (escQ quotedName) :=
  ⟨(C5_sink_rendering quotedSinkPlasmid styledQuotedPlasmid (by decide)).1 rfl,
   (C5_sink_rendering quotedSinkPlasmid styledQuotedPlasmid
      (by decide)).2.1 quotedName rfl⟩

/-- The delay formula is monotone over the attempt count. -/
theorem retryDelay_mono {a b : Nat} (h : a ≤ b) :
    retryDelay a ≤ retryDelay b := by
  unfold retryDelay
  have hlog : Real.logb 2 (a : ℝ) ≤ Real.logb 2 (b : ℝ) := by
    rcases Nat.eq_zero_or_pos a with ha | ha
    · subst ha
      simp only [Nat.cast_zero, Real.logb_zero]
      rcases Nat.eq_zero_or_pos b with hb | hb
      · subst hb
        simp [Real.logb_zero]
      · exact Real.logb_nonneg one_lt_two (by exact_mod_cast hb)
    · exact Real.logb_le_logb_of_le one_lt_two (by exact_mod_cast ha)
        (by exact_mod_cast h)
  linarith

/-- The executor starting at `start` with `j < fuel` initial failures
and a success on attempt `start + j` returns that success, sleeps after
attempts `start, ..., start + j - 1`, and makes `j + 1` attempts. -/
theorem retryGo_succeeds {α : Type} (op : Nat → Except Unit α) (a : α) :
    ∀ (j fuel start : Nat), j < fuel →
      (∀ i, start ≤ i → i < start + j → op i = Except.error ()) →
      op (start + j) = Except.ok a →
      retryGo op start fuel = (Except.ok a, List.range' start j, j + 1) := by
  intro j
  induction j with
  | zero =>
    intro fuel start hj hfail hok
    cases fuel with
    | zero => omega
    | succ f =>
      rw [Nat.add_zero] at hok
      unfold retryGo
      rw [hok]
      rfl
  | succ n ih =>
    intro fuel start hj hfail hok
    cases fuel with
    | zero => omega
    | succ f =>
      have hs : op start = Except.error () :=
        hfail start (Nat.le_refl _) (by omega)
      cases f with
      | zero => omega
      | succ rem =>
        have ih2 := ih (rem + 1) (start + 1) (by omega)
          (fun i h1 h2 => hfail i (by omega) (by omega))
          (by rw [show start + 1 + n = start + (n + 1) by omega]; exact hok)
        unfold retryGo
        rw [hs]
        simp only [ih2, List.range'_succ]

/-- The executor on an always-failing operation exhausts its budget:
it makes exactly `fuel` attempts, sleeping after each but the last. -/
theorem retryGo_all_fail {α : Type} (op : Nat → Except Unit α)
    (hfail : ∀ i, op i = Except.error ()) :
    ∀ fuel start, 1 ≤ fuel →
      retryGo op start fuel =
        (Except.error (), List.range' start (fuel - 1), fuel) := by
  intro fuel
  induction fuel with
  | zero => intro start h; omega
  | succ f ih =>
    intro start _
    unfold retryGo
    rw [hfail start]
    cases f with
    | zero => rfl
    | succ rem =>
      have ih2 := ih (start + 1) (by omega)
      simp only [ih2, List.range'_succ, Nat.succ_sub_one]

/-- C3: spec-modelled Retry Executor bound.  If the wrapped operation
fails transiently on attempts `1..k` with `k < N` and succeeds on
attempt `k + 1`, the wrapped call succeeds after `k + 1` attempts and
sleeps exactly `k` times, after attempts `1..k`, with non-decreasing
(indeed monotone in the 1-based retry count) computed delays; if it
always fails, the call fails after exactly `N` attempts, sleeping after
each attempt except the final one. -/
theorem C3_retry_bound {α : Type} (op : Nat → Except Unit α) (N : Nat)
    (hN : 1 ≤ N) :
    (∀ k a, k < N → (∀ i, 1 ≤ i → i ≤ k → op i = Except.error ()) →
      op (k + 1) = Except.ok a →
      (retryRun op N = (Except.ok a, List.range' 1 k, k + 1) ∧
       (List.range' 1 k).length = k ∧
       List.Pairwise (fun x y => retryDelay x ≤ retryDelay y)
         (List.range' 1 k))) ∧
    ((∀ i, op i = Except.error ()) →
      (retryRun op N = (Except.error (), List.range' 1 (N - 1), N) ∧
       (List.range' 1 (N - 1)).length = N - 1 ∧
       ∀ j ∈ List.range' 1 (N - 1), j < N)) := by
  constructor
  · intro k a hk hfail hok
    have h1 := retryGo_succeeds op a k N 1 hk
      (fun i hi1 hi2 => hfail i hi1 (by omega))
      (by rw [Nat.add_comm 1 k]; exact hok)
    refine ⟨h1, by simp, ?_⟩
    exact (List.pairwise_lt_range' 1 k).imp
      (fun hab => retryDelay_mono (Nat.le_of_lt hab))
  · intro hfail
    have h1 := retryGo_all_fail op hfail N 1 hN
    refine ⟨h1, by simp, ?_⟩
    intro j hj
    have hj2 := List.mem_range'_1.1 hj
    omega

/-- C3 witness: the retry bound at a transport failing exactly twice
before succeeding with budget 5, and at an always-failing transport
with budget 3. -/
theorem C3_witness :
    retryRun flakyOp 5 = (Except.ok 7, List.range' 1 2, 3) ∧
    retryRun alwaysFailOp 3 = (Except.error (), List.range' 1 2, 3) :=
  ⟨((C3_retry_bound flakyOp 5 (by decide)).1 2 7 (by decide)
      (fun i hi1 hi2 => by unfold flakyOp; rw [if_pos hi2]) (by decide)).1,
   ((C3_retry_bound alwaysFailOp 3 (by decide)).2 (fun i => rfl)).1⟩
